import Mathlib

/-
  Verification development for the Zia customer-support prototype
  (food-delivery support agent).

  The JavaScript sources are shallowly embedded:
  * JS numbers are modelled as rationals; timestamps are milliseconds
    since the epoch, as in JS Date arithmetic.
  * try/catch blocks are modelled by an explicit boolean `fault` argument:
    `fault = true` means an internal error was thrown inside the try block,
    and the function returns the value built in the catch branch.
  * User-facing English strings that no logic inspects are represented by
    abbreviated constants or small inductive reason tags carrying the data
    that the source interpolates into them.
  * The in-memory session registry of the server (the configured
    `demoMode = true` path) is a function from session ids to sessions.
-/

namespace Zia

/-! ### JS primitives -/

/-- JS `Math.round`: round half toward positive infinity. -/
def jsRound (q : ℚ) : ℤ := ⌊q + 1 / 2⌋

/-- Check that the first list is an initial segment of the second. -/
def leadsWith : List Char → List Char → Bool
  | [], _ => true
  | _ :: _, [] => false
  | a :: pa, b :: pb => a == b && leadsWith pa pb

/-- Check that the first list contains the second as a contiguous run. -/
def hasSub : List Char → List Char → Bool
  | [], pat => pat.isEmpty
  | h :: t, pat => leadsWith pat (h :: t) || hasSub t pat

/-- JS `s.includes(pat)` on strings: substring containment. -/
def jsIncludes (s pat : String) : Bool := hasSub s.toList pat.toList

/-- JS `s.toLowerCase()` (all source strings are ASCII). -/
def lowerStr (s : String) : String := String.mk (s.data.map Char.toLower)

/-! ### Data model (from the session objects and mock data in the sources) -/

inductive MembershipTier
  | REGULAR
  | PRO
  | PRO_PLUS
deriving DecidableEq

structure CustomerInfo where
  id : String
  name : String
  membershipTier : MembershipTier
  fraudRiskScore : ℚ
  complaintFrequency : ℚ
deriving DecidableEq

structure OrderItem where
  name : String
  price : ℚ
  quantity : ℚ
deriving DecidableEq

structure OrderDetails where
  id : String
  restaurantId : String
  restaurantName : String
  items : List OrderItem
  totalAmount : ℚ
  deliveryFee : Option ℚ
  orderedAt : ℚ
  estimatedDeliveryTime : ℚ
  deliveredAt : Option ℚ
  restaurantCloseTime : ℚ
  problemFlag : Bool
  refunded : Bool
deriving DecidableEq

/-- The delivery time as the verification code reads it: JS `new Date(null)`
is the epoch, so a missing `deliveredAt` is millisecond 0. -/
def OrderDetails.deliveredMs (od : OrderDetails) : ℚ := od.deliveredAt.getD 0

structure ExtractedEntities where
  orderId : Option String
  wrongItems : List String
  missingItems : List String
  latenessMinutes : Option ℚ
deriving DecidableEq

inductive IntentType
  | WRONG_ORDER
  | MISSING_ITEM
  | LATE_DELIVERY
  | REFUND_REQUEST
  | ESCALATION_REQUEST
  | ORDER_STATUS
  | GENERAL_QUERY
deriving DecidableEq

structure Intent where
  type : IntentType
  confidence : ℚ
deriving DecidableEq

/-! ### Configuration (config/appConfig.js) -/

def config.verificationWindows.wrongOrder : ℚ := 60

def config.verificationWindows.missingItem : ℚ := 60

def config.verificationWindows.lateDeliveryHours : ℚ := 24

def config.thresholds.fraudRiskScore : ℚ := 7 / 10

def config.thresholds.complaintFrequency : ℚ := 5

def config.thresholds.acceptableLateness : ℚ := 10

def config.thresholds.redeliveryWindowMinutes : ℚ := 120

def config.thresholds.refundEligibilityDays : ℚ := 7

def config.thresholds.maxLateFee : ℚ := 200

def config.thresholds.maxBonusAmount : ℚ := 100

def config.thresholds.highValueOrder : ℚ := 1000

def config.compensationRates.slightlyLate : ℚ := 1 / 10

def config.compensationRates.moderatelyLate : ℚ := 2 / 10

def config.compensationRates.veryLate : ℚ := 3 / 10

def config.compensationRates.premiumBonus : ℚ := 2 / 10

/-! ### Verification engine (modules/decisionEngine.js) -/

/-- Tags for the English reason strings of verification results; constructors
carry the numbers the source interpolates into the strings. -/
inductive VReason
  | flaggedProblem
  | trustedTier
  | tooLongAfterDelivery
  | riskExceedsThreshold
  | reportAccepted
  | onTimeOrEarly
  | withinAcceptableRange (roundedLateness : ℤ)
  | lateAccepted (roundedLateness : ℤ)
  | claimedItemsNotInOrder
  | benefitOfDoubt
deriving DecidableEq

structure VerificationResult where
  verified : Bool
  reason : VReason
  latenessMinutes : Option ℚ := none
  validMissingItems : Option (List String) := none
deriving DecidableEq

def verifyWrongOrderIssue (fault : Bool) (orderDetails : OrderDetails)
    (wrongItems : List String) (customerInfo : CustomerInfo) (now : ℚ) :
    VerificationResult :=
  if fault then
    { verified := true, reason := .benefitOfDoubt }
  else if orderDetails.problemFlag then
    { verified := true, reason := .flaggedProblem }
  else if customerInfo.membershipTier = .PRO ∨ customerInfo.membershipTier = .PRO_PLUS then
    { verified := true, reason := .trustedTier }
  else if (now - orderDetails.deliveredMs) / (1000 * 60) > config.verificationWindows.wrongOrder then
    { verified := false, reason := .tooLongAfterDelivery }
  else if customerInfo.fraudRiskScore > config.thresholds.fraudRiskScore then
    { verified := false, reason := .riskExceedsThreshold }
  else
    { verified := true, reason := .reportAccepted }

/-- The filter the source applies to claimed missing items: keep a claim when
its lowercase form is an element of the list of lowercase ordered-item names
(JS `Array.prototype.includes`, i.e. exact equality). -/
def validMissingItemsOf (orderDetails : OrderDetails) (missingItems : List String) :
    List String :=
  missingItems.filter (fun item =>
    (orderDetails.items.map (fun i => lowerStr i.name)).contains (lowerStr item))

def verifyMissingItemIssue (fault : Bool) (orderDetails : OrderDetails)
    (missingItems : List String) (customerInfo : CustomerInfo) (now : ℚ) :
    VerificationResult :=
  if fault then
    { verified := true, reason := .benefitOfDoubt }
  else
    if validMissingItemsOf orderDetails missingItems = [] ∧ missingItems ≠ [] then
      { verified := false, reason := .claimedItemsNotInOrder }
    else if orderDetails.problemFlag then
      { verified := true, reason := .flaggedProblem }
    else if customerInfo.membershipTier = .PRO ∨ customerInfo.membershipTier = .PRO_PLUS then
      { verified := true, reason := .trustedTier }
    else if (now - orderDetails.deliveredMs) / (1000 * 60) > config.verificationWindows.missingItem then
      { verified := false, reason := .tooLongAfterDelivery }
    else if customerInfo.fraudRiskScore > config.thresholds.fraudRiskScore then
      { verified := false, reason := .riskExceedsThreshold }
    else
      { verified := true, reason := .reportAccepted,
        validMissingItems := some (validMissingItemsOf orderDetails missingItems) }

/-- Lateness in minutes, as computed inside `verifyLateDeliveryIssue`:
`(deliveredAt - estimatedDeliveryTime) / (1000 * 60)`. -/
def latenessOf (orderDetails : OrderDetails) : ℚ :=
  (orderDetails.deliveredMs - orderDetails.estimatedDeliveryTime) / (1000 * 60)

def verifyLateDeliveryIssue (fault : Bool) (orderDetails : OrderDetails)
    (customerInfo : CustomerInfo) (now : ℚ) : VerificationResult :=
  if fault then
    { verified := true, reason := .benefitOfDoubt, latenessMinutes := some 0 }
  else
    if latenessOf orderDetails ≤ 0 then
      { verified := false, reason := .onTimeOrEarly, latenessMinutes := some 0 }
    else if latenessOf orderDetails < config.thresholds.acceptableLateness then
      { verified := false, reason := .withinAcceptableRange (jsRound (latenessOf orderDetails)),
        latenessMinutes := some (latenessOf orderDetails) }
    else if (now - orderDetails.deliveredMs) / (1000 * 60 * 60) > config.verificationWindows.lateDeliveryHours then
      { verified := false, reason := .tooLongAfterDelivery,
        latenessMinutes := some (latenessOf orderDetails) }
    else
      { verified := true, reason := .lateAccepted (jsRound (latenessOf orderDetails)),
        latenessMinutes := some (latenessOf orderDetails) }

inductive EReason
  | alreadyRefunded
  | tooOld
  | errorDetermining
deriving DecidableEq

structure EligibilityResult where
  eligible : Bool
  reason : Option EReason := none
  amount : Option ℚ := none
  percentage : Option ℚ := none
deriving DecidableEq

def checkRefundEligibility (fault : Bool) (orderDetails : OrderDetails)
    (customerInfo : CustomerInfo) (now : ℚ) : EligibilityResult :=
  if fault then
    { eligible := false, reason := some .errorDetermining }
  else if orderDetails.refunded then
    { eligible := false, reason := some .alreadyRefunded }
  else
    let daysSinceOrder := (now - orderDetails.orderedAt) / (1000 * 60 * 60 * 24)
    if daysSinceOrder > config.thresholds.refundEligibilityDays then
      { eligible := false, reason := some .tooOld }
    else
      let refundPercentage : ℚ :=
        if customerInfo.membershipTier ≠ .PRO ∧ customerInfo.membershipTier ≠ .PRO_PLUS then
          if daysSinceOrder > 3 then 50 else if daysSinceOrder > 1 then 75 else 100
        else 100
      { eligible := true,
        amount := some (orderDetails.totalAmount * refundPercentage / 100),
        percentage := some refundPercentage }

/-! ### Solution decision engine (modules/decisionEngine.js) -/

inductive SolutionType
  | REFUND
  | REDELIVERY
  | CREDIT
deriving DecidableEq

inductive SReason
  | wrongItemsInOrder
  | missingItemsInOrder
  | extremeDelay (roundedLateness : ℤ)
  | deliveryDelay (roundedLateness : ℤ)
  | inconvenience
  | standardCompensation
deriving DecidableEq

structure Solution where
  type : SolutionType
  amount : ℚ
  reason : SReason
  bonusAmount : Option ℚ := none
  estimatedTime : Option ℚ := none
deriving DecidableEq

/-- The accumulation loop of `calculateAffectedItemsAmount`: sum of
`price * quantity` over order items whose lowercase name contains some
claimed lowercase name. -/
def matchedItemsTotal (orderDetails : OrderDetails) (itemNames : List String) : ℚ :=
  orderDetails.items.foldl
    (fun acc item =>
      if (itemNames.map lowerStr).any (fun n => jsIncludes (lowerStr item.name) n) then
        acc + item.price * item.quantity
      else acc)
    0

def calculateAffectedItemsAmount (orderDetails : OrderDetails)
    (itemNames : List String) : ℚ :=
  if itemNames.isEmpty then 0
  else if matchedItemsTotal orderDetails itemNames = 0 ∧ ¬ itemNames.isEmpty then
    orderDetails.totalAmount * (3 / 10)
  else matchedItemsTotal orderDetails itemNames

/-- The affected amount used by `decideSolution` for WRONG_ORDER:
full order total when no specific wrong items are claimed. -/
def wrongOrderAffectedAmount (orderDetails : OrderDetails)
    (entities : ExtractedEntities) : ℚ :=
  if ¬ entities.wrongItems.isEmpty then
    calculateAffectedItemsAmount orderDetails entities.wrongItems
  else orderDetails.totalAmount

/-- JS `x || d` for an optional number: `0` is falsy. -/
def jsNumOr (x : Option ℚ) (d : ℚ) : ℚ :=
  match x with
  | some v => if v = 0 then d else v
  | none => d

def decideSolution (fault : Bool) (issueType : IntentType)
    (orderDetails : OrderDetails) (customerInfo : CustomerInfo)
    (entities : ExtractedEntities) (now : ℚ) : Solution :=
  if fault then
    { type := .CREDIT, amount := 100, reason := .standardCompensation }
  else
    let restaurantIsOpen := now < orderDetails.restaurantCloseTime
    let minutesSinceDelivery :=
      match orderDetails.deliveredAt with
      | some d => (now - d) / (1000 * 60)
      | none => 0
    let redeliveryIsPossible :=
      restaurantIsOpen ∧ minutesSinceDelivery < config.thresholds.redeliveryWindowMinutes
    if issueType = .WRONG_ORDER ∨ issueType = .MISSING_ITEM then
      let affectedAmount :=
        if issueType = .WRONG_ORDER then
          wrongOrderAffectedAmount orderDetails entities
        else
          calculateAffectedItemsAmount orderDetails entities.missingItems
      let reason :=
        if issueType = .WRONG_ORDER then SReason.wrongItemsInOrder
        else SReason.missingItemsInOrder
      if redeliveryIsPossible then
        { type := .REDELIVERY, amount := affectedAmount, reason := reason,
          estimatedTime := some 35 }
      else if customerInfo.membershipTier = .PRO ∨ customerInfo.membershipTier = .PRO_PLUS then
        let bonusAmount :=
          min (affectedAmount * config.compensationRates.premiumBonus)
            config.thresholds.maxBonusAmount
        { type := .CREDIT, amount := affectedAmount + bonusAmount, reason := reason,
          bonusAmount := some bonusAmount }
      else
        { type := .REFUND, amount := affectedAmount, reason := reason }
    else if issueType = .LATE_DELIVERY then
      let latenessMinutes := entities.latenessMinutes.getD 0
      let compensationRate : ℚ :=
        if latenessMinutes > 60 then config.compensationRates.veryLate
        else if latenessMinutes > 30 then config.compensationRates.moderatelyLate
        else if latenessMinutes > 15 then config.compensationRates.slightlyLate
        else 0
      let compensationAmount :=
        min (orderDetails.totalAmount * compensationRate) config.thresholds.maxLateFee
      if latenessMinutes > 90 then
        { type := .REFUND, amount := orderDetails.totalAmount,
          reason := .extremeDelay (jsRound latenessMinutes) }
      else
        { type := .CREDIT, amount := compensationAmount,
          reason := .deliveryDelay (jsRound latenessMinutes) }
    else
      { type := .CREDIT, amount := jsNumOr orderDetails.deliveryFee 50,
        reason := .inconvenience }

/-! ### Session data (server session objects in the entry module) -/

inductive Role
  | user
  | assistant
deriving DecidableEq

structure Message where
  role : Role
  content : String
  timestamp : ℚ
deriving DecidableEq

structure Resolution where
  type : SolutionType
  orderId : String
  amount : ℚ
  timestamp : ℚ
  success : Bool
deriving DecidableEq

inductive SessionStatus
  | active
  | ended
deriving DecidableEq

structure Session where
  sessionId : String
  customerId : String
  customerInfo : CustomerInfo
  orderIds : List String
  orderDetails : List OrderDetails
  conversationHistory : List Message
  createdAt : ℚ
  lastActivityAt : ℚ
  status : SessionStatus
  escalated : Bool
  resolutions : List Resolution
deriving DecidableEq

/-! ### Escalation manager (modules/escalationManager.js) -/

def frustrationIndicators : List String :=
  ["speak to a human", "speak to a person", "talk to a manager",
   "talk to a supervisor", "this is ridiculous", "this is unacceptable",
   "unhelpful", "useless", "waste of time", "are you a bot"]

def userMessagesLower (session : Session) : List String :=
  (session.conversationHistory.filter (fun m => decide (m.role = .user))).map
    (fun m => lowerStr m.content)

def frustrationCount (session : Session) : ℕ :=
  (userMessagesLower session).foldl
    (fun count message =>
      if frustrationIndicators.any (fun indicator => jsIncludes message indicator) then
        count + 1
      else count)
    0

def shouldAutoEscalate (fault : Bool) (session : Session) : Bool :=
  if fault then false
  else if session.customerInfo.membershipTier = .PRO_PLUS then true
  else if frustrationCount session ≥ 2 then true
  else if session.orderDetails.any
      (fun order => decide (order.totalAmount > config.thresholds.highValueOrder)) then
    true
  else if session.resolutions.length ≥ 2 then true
  else false

inductive Priority
  | HIGH
  | MEDIUM
  | LOW
deriving DecidableEq

def determinePriority (fault : Bool) (session : Session) : Priority :=
  if fault then .MEDIUM
  else if session.customerInfo.membershipTier = .PRO_PLUS then .HIGH
  else if session.customerInfo.membershipTier = .PRO then .HIGH
  else if session.conversationHistory.length > 10 then .HIGH
  else if session.orderDetails.any
      (fun order => decide (order.totalAmount > config.thresholds.highValueOrder)) then
    .HIGH
  else if session.customerInfo.complaintFrequency > 3 then .HIGH
  else .MEDIUM

/-! ### Server endpoints, demo mode (entry module; `config.demoMode = true`)

The in-memory registry `sessions` is a function from ids to sessions.
The canned assistant replies are abbreviated: no claim inspects their text. -/

abbrev SessionStore := String → Option Session

inductive ApiError
  | notFound
deriving DecidableEq

def noOrderResponse : String := "no recent orders; please provide your order number"

def wrongOrderSuccessResponse (orderDetails : OrderDetails) : String :=
  "full refund processed for your order from " ++ orderDetails.restaurantName

def wrongOrderErrorResponse : String := "technical issue while processing your request"

def missingItemResponse : String := "refund for the missing items is on its way"

def lateDeliveryResponse : String := "100 Zomato credits added as compensation"

def refundRequestResponse : String := "full refund processed for your order"

def escalationResponse : String := "connecting you with our support team now"

def orderStatusResponse : String := "your order is being prepared"

def generalResponse : String := "how can I assist you with your Zomato order today?"

/-- The order id the wrong-order handler acts on:
`entities.orderId || (session.orderIds.length > 0 ? session.orderIds[0] : null)`
followed by the `if (!orderId)` guard; the empty string is falsy in JS. -/
def firstOrderId (session : Session) (entities : ExtractedEntities) : Option String :=
  let candidate :=
    match entities.orderId with
    | some s => if s = "" then session.orderIds.head? else some s
    | none => session.orderIds.head?
  match candidate with
  | some s => if s = "" then none else some s
  | none => none

def handleWrongOrderIntent (fault : Bool) (session : Session)
    (entities : ExtractedEntities) (getOrder : String → OrderDetails) (now : ℚ) :
    String × Session :=
  if fault then (wrongOrderErrorResponse, session)
  else
    match firstOrderId session entities with
    | none => (noOrderResponse, session)
    | some orderId =>
      let orderDetails := getOrder orderId
      let resolution : Resolution :=
        { type := .REFUND, orderId := orderId, amount := orderDetails.totalAmount,
          timestamp := now, success := true }
      (wrongOrderSuccessResponse orderDetails,
       { session with resolutions := session.resolutions ++ [resolution] })

def postMessage (st : SessionStore) (sessionId message : String) (now : ℚ)
    (intent : Intent) (entities : ExtractedEntities)
    (getOrder : String → OrderDetails) (fault : Bool) :
    Except ApiError (String × Bool) × SessionStore :=
  match st sessionId with
  | none => (.error .notFound, st)
  | some session₀ =>
    let session₁ := { session₀ with lastActivityAt := now }
    let session₂ :=
      { session₁ with
        conversationHistory := session₁.conversationHistory ++
          [{ role := .user, content := message, timestamp := now }] }
    let step : String × Session :=
      match intent.type with
      | .WRONG_ORDER => handleWrongOrderIntent fault session₂ entities getOrder now
      | .MISSING_ITEM => (missingItemResponse, session₂)
      | .LATE_DELIVERY => (lateDeliveryResponse, session₂)
      | .REFUND_REQUEST => (refundRequestResponse, session₂)
      | .ESCALATION_REQUEST => (escalationResponse, { session₂ with escalated := true })
      | .ORDER_STATUS => (orderStatusResponse, session₂)
      | .GENERAL_QUERY => (generalResponse, session₂)
    let session₃ :=
      { step.2 with
        conversationHistory := step.2.conversationHistory ++
          [{ role := .assistant, content := step.1, timestamp := now }] }
    (.ok (step.1, session₃.escalated),
     fun k => if k = sessionId then some session₃ else st k)

def endSession (st : SessionStore) (sessionId : String) :
    Except ApiError Unit × SessionStore :=
  match st sessionId with
  | none => (.error .notFound, st)
  | some _ => (.ok (), fun k => if k = sessionId then none else st k)

/-! ### Issue dispatcher over the three verification specializations -/

inductive VerifiableIssue
  | wrongOrder
  | missingItem
  | lateDelivery
deriving DecidableEq

def verifyIssue (fault : Bool) (k : VerifiableIssue) (od : OrderDetails)
    (entities : ExtractedEntities) (ci : CustomerInfo) (now : ℚ) :
    VerificationResult :=
  match k with
  | .wrongOrder => verifyWrongOrderIssue fault od entities.wrongItems ci now
  | .missingItem => verifyMissingItemIssue fault od entities.missingItems ci now
  | .lateDelivery => verifyLateDeliveryIssue fault od ci now

/-! ### Claim-side definitions

These follow the wording of the specification, for comparison against the
definitions translated from the source; they are not source translations. -/

/-- Claim-side filter for C7, following the spec words: keep a claimed missing
item when its lowercase name occurs as a substring of some ordered item's
lowercase name. -/
def specSubstringMissingItems (orderDetails : OrderDetails)
    (missingItems : List String) : List String :=
  missingItems.filter (fun item =>
    orderDetails.items.any (fun i => jsIncludes (lowerStr i.name) (lowerStr item)))

/-- Claim-side matched item set for C8, following the spec words: order items
whose lowercase name contains some claimed lowercase name. -/
def specMatchedItems (orderDetails : OrderDetails) (itemNames : List String) :
    List OrderItem :=
  orderDetails.items.filter (fun item =>
    (itemNames.map lowerStr).any (fun n => jsIncludes (lowerStr item.name) n))

/-- Claim-side frustration lexicon for C9, as the claim lists it. -/
def specFrustrationLexicon : List String :=
  ["speak to a human", "talk to a manager", "talk to a supervisor",
   "ridiculous", "unacceptable", "unhelpful", "useless", "waste of time",
   "are you a bot"]

/-- Claim-side frustration counter for C9: user messages containing a phrase
of the claim's lexicon. -/
def specFrustrationCount (session : Session) : ℕ :=
  (userMessagesLower session).foldl
    (fun count message =>
      if specFrustrationLexicon.any (fun indicator => jsIncludes message indicator) then
        count + 1
      else count)
    0

/-- Resolution record built from a Solution, as the claim C1 describes the
append of a produced Solution to the resolution log. -/
def resolutionOfSolution (sol : Solution) (orderId : String) (now : ℚ) : Resolution :=
  { type := sol.type, orderId := orderId, amount := sol.amount, timestamp := now,
    success := true }

/-- Claim-side WRONG_ORDER pipeline for C1, following the spec sentences:
run the verification engine on the resolved order; only when it verifies,
produce a Solution with the decision engine and append the corresponding
Resolution to the session's resolution log. -/
def specGatedWrongOrderResolutions (session : Session) (entities : ExtractedEntities)
    (getOrder : String → OrderDetails) (now : ℚ) : List Resolution :=
  match firstOrderId session entities with
  | none => session.resolutions
  | some oid =>
    let od := getOrder oid
    if (verifyWrongOrderIssue false od entities.wrongItems session.customerInfo now).verified then
      session.resolutions ++
        [resolutionOfSolution
          (decideSolution false .WRONG_ORDER od session.customerInfo entities now) oid now]
    else session.resolutions

/-! ### Concrete fixtures for counterexamples and witnesses -/

def regularCustomer : CustomerInfo :=
  { id := "cust_1", name := "Asha Rao", membershipTier := .REGULAR,
    fraudRiskScore := 0, complaintFrequency := 0 }

def baseOrder : OrderDetails :=
  { id := "order_1", restaurantId := "rest_1", restaurantName := "Dominos",
    items := [{ name := "Margherita Pizza (Large)", price := 299, quantity := 1 }],
    totalAmount := 299, deliveryFee := some 49, orderedAt := 0,
    estimatedDeliveryTime := 0, deliveredAt := some 0, restaurantCloseTime := 0,
    problemFlag := false, refunded := false }

def noEntities : ExtractedEntities :=
  { orderId := none, wrongItems := [], missingItems := [], latenessMinutes := none }

def mkUserMessage (content : String) : Message :=
  { role := .user, content := content, timestamp := 0 }

def baseSession : Session :=
  { sessionId := "s1", customerId := "cust_1", customerInfo := regularCustomer,
    orderIds := ["order_1"], orderDetails := [baseOrder], conversationHistory := [],
    createdAt := 0, lastActivityAt := 0, status := .active, escalated := false,
    resolutions := [] }

def proPlusCustomer : CustomerInfo := { regularCustomer with membershipTier := .PRO_PLUS }

def c2Order : OrderDetails :=
  { baseOrder with estimatedDeliveryTime := 0, deliveredAt := some 3600000 }

def c2Now : ℚ := 3600000 + 72 * 3600000

def c2MissEntities : ExtractedEntities := { noEntities with missingItems := ["sushi platter"] }

def c5Order : OrderDetails := { baseOrder with totalAmount := 500 }

def c5Entities : ExtractedEntities := { noEntities with latenessMinutes := some 75 }

def c6Order : OrderDetails := { baseOrder with deliveredAt := some 600000 }

def c6WitnessOrder : OrderDetails := { baseOrder with deliveredAt := some 300000 }

def c7Order : OrderDetails := { baseOrder with problemFlag := true }

def freeCokeItem : OrderItem := { name := "Free Coke", price := 0, quantity := 1 }

def c8Order : OrderDetails :=
  { baseOrder with items := [freeCokeItem], totalAmount := 100 }

def c9Messages : List Message :=
  [mkUserMessage "absolutely ridiculous", mkUserMessage "unacceptable service"]

def c9Session : Session :=
  { baseSession with orderDetails := [], conversationHistory := c9Messages }

def sampleResolution : Resolution :=
  { type := .REFUND, orderId := "order_1", amount := 100, timestamp := 0, success := true }

def c9WitnessSession : Session :=
  { baseSession with resolutions := [sampleResolution, sampleResolution] }

def c1Customer : CustomerInfo := { regularCustomer with fraudRiskScore := 9 / 10 }

def c1Session : Session := { baseSession with customerInfo := c1Customer }

def c1Store : SessionStore := fun k => if k = "s1" then some c1Session else none

def c3Store : SessionStore := fun k => if k = "s1" then some baseSession else none

/-! ### Claim theorems -/

/-- Claim C4: for every order, entities and customer on which an internal fault occurs
during verification of any issue type (WRONG_ORDER, MISSING_ITEM, LATE_DELIVERY),
the verify operation still returns a result with verified = true and the
benefit-of-the-doubt reason, never a propagated error and never a rejection. -/
theorem c4_verification_fails_open (k : VerifiableIssue) (od : OrderDetails)
    (entities : ExtractedEntities) (ci : CustomerInfo) (now : ℚ) :
    (verifyIssue true k od entities ci now).verified = true ∧
    (verifyIssue true k od entities ci now).reason = .benefitOfDoubt := by
  cases k <;> exact ⟨rfl, rfl⟩

/-- Claim C10: on any internal fault, shouldAutoEscalate returns false,
determinePriority returns MEDIUM, and checkRefundEligibility returns
eligible = false: these operations fail closed on error. -/
theorem c10_fail_closed (session : Session) (od : OrderDetails)
    (ci : CustomerInfo) (now : ℚ) :
    shouldAutoEscalate true session = false ∧
    determinePriority true session = .MEDIUM ∧
    (checkRefundEligibility true od ci now).eligible = false :=
  ⟨rfl, rfl, rfl⟩

/-- Claim C5: decide(LATE_DELIVERY) with caller-supplied latenessMinutes gives a REFUND
of exactly the order total when lateness exceeds 90 minutes, and otherwise a
CREDIT of min(totalAmount times the rate, 200) with rate 0.3 for lateness above
60, 0.2 above 30, 0.1 above 15, and 0 otherwise. -/
theorem c5_late_delivery_decision (od : OrderDetails) (ci : CustomerInfo)
    (entities : ExtractedEntities) (now lm : ℚ)
    (h : entities.latenessMinutes = some lm) :
    (90 < lm →
      decideSolution false .LATE_DELIVERY od ci entities now =
        { type := .REFUND, amount := od.totalAmount,
          reason := .extremeDelay (jsRound lm) }) ∧
    (lm ≤ 90 →
      (decideSolution false .LATE_DELIVERY od ci entities now).type = .CREDIT ∧
      (decideSolution false .LATE_DELIVERY od ci entities now).amount =
        min (od.totalAmount *
          (if 60 < lm then 3 / 10
           else if 30 < lm then 2 / 10
           else if 15 < lm then 1 / 10
           else 0)) 200) := by
  unfold decideSolution
  simp only [h, Option.getD_some, config.compensationRates.veryLate,
    config.compensationRates.moderatelyLate, config.compensationRates.slightlyLate,
    config.thresholds.maxLateFee]
  constructor
  · intro h90
    simp [h90, gt_iff_lt]
  · intro h90
    rw [if_pos trivial, if_neg (not_lt.mpr h90)]
    exact ⟨rfl, rfl⟩

/-- Claim C5 witness: lateness 75 minutes on a 500-unit order yields CREDIT of 150. -/
theorem c5_witness :
    (decideSolution false .LATE_DELIVERY c5Order regularCustomer c5Entities 0).type = .CREDIT ∧
    (decideSolution false .LATE_DELIVERY c5Order regularCustomer c5Entities 0).amount = 150 := by
  have h := c5_late_delivery_decision c5Order regularCustomer c5Entities 0 75 rfl
  have h2 := h.2 (by norm_num)
  refine ⟨h2.1, ?_⟩
  rw [h2.2]
  norm_num [c5Order, baseOrder]

/-- Claim C6 counterexample: at lateness of exactly 10 minutes (the claim includes it
among the rejected values), verifyLateDeliveryIssue verifies the complaint,
because the source compares with strict less-than against the 10-minute
threshold. -/
theorem c6_counterexample :
    latenessOf c6Order = 10 ∧
    (verifyLateDeliveryIssue false c6Order regularCustomer 600000).verified = true := by
  have hl : latenessOf c6Order = 10 := by
    norm_num [latenessOf, OrderDetails.deliveredMs, c6Order, baseOrder]
  refine ⟨hl, ?_⟩
  unfold verifyLateDeliveryIssue
  rw [if_neg (by simp)]
  rw [hl]
  rw [if_neg (by norm_num), if_neg (by norm_num [config.thresholds.acceptableLateness])]
  rw [if_neg (by norm_num [OrderDetails.deliveredMs, c6Order, baseOrder,
    config.verificationWindows.lateDeliveryHours])]

/-- Claim C6 amended: for every lateness value strictly below the 10-minute
acceptable-lateness threshold, verifyLateDeliveryIssue returns verified = false;
lateness of at most 0 fails as on-time-or-early, and positive lateness below the
threshold fails with the rounded lateness in the message. -/
theorem c6_short_lateness_rejected (od : OrderDetails) (ci : CustomerInfo) (now : ℚ)
    (h : latenessOf od < config.thresholds.acceptableLateness) :
    (verifyLateDeliveryIssue false od ci now).verified = false ∧
    (latenessOf od ≤ 0 →
      (verifyLateDeliveryIssue false od ci now).reason = .onTimeOrEarly) ∧
    (0 < latenessOf od →
      (verifyLateDeliveryIssue false od ci now).reason =
        .withinAcceptableRange (jsRound (latenessOf od))) := by
  unfold verifyLateDeliveryIssue
  rw [if_neg (by simp)]
  split_ifs with h0
  · exact ⟨rfl, fun _ => rfl, fun hpos => absurd hpos (not_lt.mpr h0)⟩
  · exact ⟨rfl, fun hle => absurd hle h0, fun _ => rfl⟩

/-- Claim C6 witness: lateness of 5 minutes is rejected with the rounded lateness. -/
theorem c6_witness :
    (verifyLateDeliveryIssue false c6WitnessOrder regularCustomer 300000).verified = false ∧
    (verifyLateDeliveryIssue false c6WitnessOrder regularCustomer 300000).reason =
      .withinAcceptableRange 5 := by
  have hl : latenessOf c6WitnessOrder = 5 := by
    norm_num [latenessOf, OrderDetails.deliveredMs, c6WitnessOrder, baseOrder]
  have h := c6_short_lateness_rejected c6WitnessOrder regularCustomer 300000
    (by rw [hl]; norm_num [config.thresholds.acceptableLateness])
  refine ⟨h.1, ?_⟩
  rw [h.2.2 (by rw [hl]; norm_num), hl]
  norm_num [jsRound]

/-- Claim C2 counterexample: a PRO_PLUS customer is not verified for LATE_DELIVERY
when delivery was 3 days ago (the trust shortcut does not exist there), and is
not verified for MISSING_ITEM when the claimed items are not in the order (the
item-plausibility check precedes the trust shortcuts). -/
theorem c2_counterexample :
    proPlusCustomer.membershipTier = .PRO_PLUS ∧
    (verifyIssue false .lateDelivery c2Order noEntities proPlusCustomer c2Now).verified = false ∧
    (verifyIssue false .missingItem baseOrder c2MissEntities proPlusCustomer 0).verified = false := by
  refine ⟨rfl, ?_, ?_⟩
  · unfold verifyIssue verifyLateDeliveryIssue
    rw [if_neg (by simp)]
    have hl : latenessOf c2Order = 60 := by
      norm_num [latenessOf, OrderDetails.deliveredMs, c2Order, baseOrder]
    rw [hl]
    rw [if_neg (by norm_num), if_neg (by norm_num [config.thresholds.acceptableLateness])]
    rw [if_pos (by norm_num [OrderDetails.deliveredMs, c2Order, c2Now, baseOrder,
      config.verificationWindows.lateDeliveryHours])]
  · decide

/-- Claim C2 corrected: the trust shortcuts (problemFlag, or PRO or PRO_PLUS tier)
verify immediately for WRONG_ORDER with precedence over the timeliness and risk
checks, and for MISSING_ITEM with precedence over timeliness and risk but only
after the item-plausibility check passes; LATE_DELIVERY has no trust shortcut. -/
theorem c2_trust_shortcuts (od : OrderDetails) (entities : ExtractedEntities)
    (ci : CustomerInfo) (now : ℚ)
    (h : od.problemFlag = true ∨ ci.membershipTier = .PRO ∨ ci.membershipTier = .PRO_PLUS) :
    (verifyIssue false .wrongOrder od entities ci now).verified = true ∧
    (¬ (validMissingItemsOf od entities.missingItems = [] ∧ entities.missingItems ≠ []) →
      (verifyIssue false .missingItem od entities ci now).verified = true) := by
  constructor
  · unfold verifyIssue verifyWrongOrderIssue
    rw [if_neg (by simp)]
    split_ifs with h1 h2 h3 h4 <;> try rfl
    all_goals
      exact absurd h (by
        push_neg
        refine ⟨fun hp => h1 hp, fun ht => h2 (Or.inl ht), fun ht => h2 (Or.inr ht)⟩)
  · intro hplaus
    unfold verifyIssue verifyMissingItemIssue
    rw [if_neg (by simp), if_neg hplaus]
    split_ifs with h1 h2 h3 h4 <;> try rfl
    all_goals
      exact absurd h (by
        push_neg
        refine ⟨fun hp => h1 hp, fun ht => h2 (Or.inl ht), fun ht => h2 (Or.inr ht)⟩)

/-- Claim C2 witness: a PRO_PLUS customer is verified for WRONG_ORDER and for
MISSING_ITEM (with no claimed items) even when delivery was 3 days ago. -/
theorem c2_witness :
    (verifyIssue false .wrongOrder c2Order noEntities proPlusCustomer c2Now).verified = true ∧
    (verifyIssue false .missingItem c2Order noEntities proPlusCustomer c2Now).verified = true := by
  have h := c2_trust_shortcuts c2Order noEntities proPlusCustomer c2Now (Or.inr (Or.inr rfl))
  exact ⟨h.1, h.2 (by decide)⟩

/-- Claim C7 counterexample: the claimed item "pizza" matches the ordered
"Margherita Pizza (Large)" as a substring, so under the claim's substring filter
the matched set is non-empty; yet verifyMissingItemIssue rejects the claim as
not-in-order, because the source filter requires exact lowercase equality. -/
theorem c7_counterexample :
    specSubstringMissingItems c7Order ["pizza"] = ["pizza"] ∧
    (verifyMissingItemIssue false c7Order ["pizza"] regularCustomer 0).verified = false ∧
    (verifyMissingItemIssue false c7Order ["pizza"] regularCustomer 0).reason =
      .claimedItemsNotInOrder := by
  refine ⟨by decide, by decide, by decide⟩

/-- Claim C7 corrected: verifyMissingItemIssue filters the claimed missing items by
exact lowercase equality with an ordered item's name; it rejects with the
claimed-items-not-in-order reason exactly when the claim list is non-empty and
that matched set is empty, and on acceptance it returns the matched set. -/
theorem c7_exact_match_filter (od : OrderDetails) (missingItems : List String)
    (ci : CustomerInfo) (now : ℚ) :
    ((verifyMissingItemIssue false od missingItems ci now).reason = .claimedItemsNotInOrder ↔
      missingItems ≠ [] ∧ validMissingItemsOf od missingItems = []) ∧
    ((verifyMissingItemIssue false od missingItems ci now).reason = .reportAccepted →
      (verifyMissingItemIssue false od missingItems ci now).validMissingItems =
        some (validMissingItemsOf od missingItems)) := by
  unfold verifyMissingItemIssue
  rw [if_neg (by simp)]
  split_ifs with h1 h2 h3 h4 h5
  · exact ⟨⟨fun _ => ⟨h1.2, h1.1⟩, fun _ => rfl⟩, fun hr => by simp at hr⟩
  · exact ⟨⟨fun e => by simp at e, fun hrhs => absurd ⟨hrhs.2, hrhs.1⟩ h1⟩,
      fun hr => by simp at hr⟩
  · exact ⟨⟨fun e => by simp at e, fun hrhs => absurd ⟨hrhs.2, hrhs.1⟩ h1⟩,
      fun hr => by simp at hr⟩
  · exact ⟨⟨fun e => by simp at e, fun hrhs => absurd ⟨hrhs.2, hrhs.1⟩ h1⟩,
      fun hr => by simp at hr⟩
  · exact ⟨⟨fun e => by simp at e, fun hrhs => absurd ⟨hrhs.2, hrhs.1⟩ h1⟩,
      fun hr => by simp at hr⟩
  · exact ⟨⟨fun e => by simp at e, fun hrhs => absurd ⟨hrhs.2, hrhs.1⟩ h1⟩,
      fun _ => rfl⟩

/-- Claim C7 witness: a claim for an item that was never ordered is rejected as
not-in-order. -/
theorem c7_witness :
    (verifyMissingItemIssue false baseOrder ["sushi"] regularCustomer 0).reason =
      .claimedItemsNotInOrder :=
  (c7_exact_match_filter baseOrder ["sushi"] regularCustomer 0).1.mpr ⟨by decide, by decide⟩

/-- With an empty claim list, no order item matches, so the matched sum is 0. -/
theorem matchedItemsTotal_nil_claims (od : OrderDetails) :
    matchedItemsTotal od [] = 0 := by
  unfold matchedItemsTotal
  suffices h : ∀ (l : List OrderItem) (a : ℚ),
      l.foldl
        (fun acc item =>
          if (([] : List String).map lowerStr).any (fun n => jsIncludes (lowerStr item.name) n) then
            acc + item.price * item.quantity
          else acc)
        a = a from h od.items 0
  intro l
  induction l with
  | nil => intro a; rfl
  | cons x xs ih =>
    intro a
    rw [List.foldl_cons]
    simpa using ih a

/-- Claim C8 counterexample: with an ordered zero-price item "Free Coke" and claim
"coke", the claim-side matched set is non-empty and its sum is 0, so the claim
says the affected amount is 0; the source instead falls back to 30 percent of
the order total (30) because its fallback condition tests the sum being 0, not
the matched set being empty. -/
theorem c8_counterexample :
    specMatchedItems c8Order ["coke"] = [freeCokeItem] ∧
    matchedItemsTotal c8Order ["coke"] = 0 ∧
    calculateAffectedItemsAmount c8Order ["coke"] = 30 := by
  have hb : ((["coke"].map lowerStr).any fun n => jsIncludes (lowerStr "Free Coke") n) = true := by
    decide
  have hm : matchedItemsTotal c8Order ["coke"] = 0 := by
    norm_num [matchedItemsTotal, c8Order, baseOrder, freeCokeItem, hb]
  refine ⟨by decide, hm, ?_⟩
  unfold calculateAffectedItemsAmount
  rw [if_neg (by decide), if_pos ⟨hm, by decide⟩]
  norm_num [c8Order, baseOrder]

/-- Claim C8 corrected: the affected amount is the sum of price times quantity over
order items whose lowercase name contains some claimed lowercase name; a
non-empty claim set whose matched sum is 0 (in particular when nothing matches)
yields 0.3 times the order total; an empty claim set yields 0; and
decide(WRONG_ORDER) with no claimed items uses the full order total as the
affected amount. -/
theorem c8_affected_amount :
    (∀ (od : OrderDetails) (claims : List String), claims ≠ [] →
      matchedItemsTotal od claims = 0 →
      calculateAffectedItemsAmount od claims = od.totalAmount * (3 / 10)) ∧
    (∀ (od : OrderDetails) (claims : List String), matchedItemsTotal od claims ≠ 0 →
      calculateAffectedItemsAmount od claims = matchedItemsTotal od claims) ∧
    (∀ od : OrderDetails, calculateAffectedItemsAmount od [] = 0) ∧
    (∀ (od : OrderDetails) (entities : ExtractedEntities), entities.wrongItems = [] →
      wrongOrderAffectedAmount od entities = od.totalAmount) := by
  refine ⟨?_, ?_, ?_, ?_⟩
  · intro od claims hne hz
    have hie : claims.isEmpty = false := by
      cases claims
      · exact absurd rfl hne
      · rfl
    unfold calculateAffectedItemsAmount
    rw [if_neg (by simp [hie]), if_pos ⟨hz, by simp [hie]⟩]
  · intro od claims hnz
    have hne : claims ≠ [] := by
      rintro rfl
      exact hnz (matchedItemsTotal_nil_claims od)
    have hie : claims.isEmpty = false := by
      cases claims
      · exact absurd rfl hne
      · rfl
    unfold calculateAffectedItemsAmount
    rw [if_neg (by simp [hie]), if_neg (by simp [hnz])]
  · intro od
    rfl
  · intro od entities hw
    simp [wrongOrderAffectedAmount, hw]

/-- Claim C8 witness: claimed item "pizza" against an ordered "Margherita Pizza
(Large)" at 299 times 1 yields an affected amount of 299. -/
theorem c8_witness :
    calculateAffectedItemsAmount baseOrder ["pizza"] = 299 := by
  have hb : jsIncludes (lowerStr "Margherita Pizza (Large)") (lowerStr "pizza") = true := by
    decide
  have hm : matchedItemsTotal baseOrder ["pizza"] = 299 := by
    norm_num [matchedItemsTotal, baseOrder, hb]
  have h := c8_affected_amount.2.1 baseOrder ["pizza"] (by rw [hm]; norm_num)
  rw [h, hm]

/-- Claim C9 counterexample: two user messages containing "ridiculous" and
"unacceptable" are both counted by the claim's lexicon (count 2, so the claim
predicts escalation), but the source lexicon only contains the longer phrases
"this is ridiculous" and "this is unacceptable", counts 0, and does not
escalate. -/
theorem c9_counterexample :
    specFrustrationCount c9Session = 2 ∧
    frustrationCount c9Session = 0 ∧
    shouldAutoEscalate false c9Session = false := by
  exact ⟨by decide, by decide, by decide⟩

/-- Claim C9 corrected: shouldAutoEscalate returns true exactly when the tier is
PRO_PLUS, or at least 2 user messages contain a phrase of the source lexicon
(which has "speak to a person" and the phrases "this is ridiculous" and
"this is unacceptable" instead of the bare adjectives), or some order exceeds
the 1000 high-value threshold, or the session has at least 2 resolutions. -/
theorem c9_auto_escalate_iff (session : Session) :
    shouldAutoEscalate false session = true ↔
      (session.customerInfo.membershipTier = .PRO_PLUS ∨
       2 ≤ frustrationCount session ∨
       session.orderDetails.any
         (fun order => decide (order.totalAmount > config.thresholds.highValueOrder)) = true ∨
       2 ≤ session.resolutions.length) := by
  unfold shouldAutoEscalate
  rw [if_neg (by simp)]
  split_ifs with h1 h2 h3 h4
  · simp [h1]
  · simp [h2]
  · simp [h3]
  · simp [h4]
  · simp [h1, h2, h3, h4]

/-- Claim C9 witness: a session with 2 recorded resolutions auto-escalates. -/
theorem c9_witness : shouldAutoEscalate false c9WitnessSession = true :=
  (c9_auto_escalate_iff c9WitnessSession).mpr (Or.inr (Or.inr (Or.inr (by decide))))

/-- Claim C3: EndSession and PostMessage fail with NotFound for every unknown session
id, leaving the registry unchanged; after EndSession succeeds on a session, the
id is gone from the registry, and every subsequent PostMessage on it fails with
NotFound and mutates nothing, so an ended session is never mutated. -/
theorem c3_session_lifecycle :
    (∀ (st : SessionStore) (sid msg : String) (now : ℚ) (intent : Intent)
        (entities : ExtractedEntities) (getOrder : String → OrderDetails) (fault : Bool),
        st sid = none →
        endSession st sid = (.error .notFound, st) ∧
        postMessage st sid msg now intent entities getOrder fault =
          (.error .notFound, st)) ∧
    (∀ (st : SessionStore) (sid : String) (s : Session),
        st sid = some s →
        (endSession st sid).1 = .ok () ∧
        (endSession st sid).2 sid = none ∧
        (∀ (msg : String) (now : ℚ) (intent : Intent) (entities : ExtractedEntities)
            (getOrder : String → OrderDetails) (fault : Bool),
          postMessage (endSession st sid).2 sid msg now intent entities getOrder fault =
            (.error .notFound, (endSession st sid).2))) := by
  constructor
  · intro st sid msg now intent entities getOrder fault h
    unfold endSession postMessage
    rw [h]
    exact ⟨rfl, rfl⟩
  · intro st sid s h
    have h2 : (endSession st sid).2 sid = none := by
      unfold endSession
      rw [h]
      simp
    refine ⟨?_, h2, ?_⟩
    · unfold endSession
      rw [h]
    · intro msg now intent entities getOrder fault
      unfold postMessage
      rw [h2]

/-- Claim C3 witness: with a one-session registry, both endpoints reject an unknown
id, and after ending the known session a PostMessage on it is rejected and the
registry is untouched. -/
theorem c3_witness :
    c3Store "s0" = none ∧
    endSession c3Store "s0" = (.error .notFound, c3Store) ∧
    c3Store "s1" = some baseSession ∧
    (endSession c3Store "s1").1 = .ok () ∧
    (endSession c3Store "s1").2 "s1" = none ∧
    postMessage (endSession c3Store "s1").2 "s1" "hello" 0 ⟨.GENERAL_QUERY, 1⟩ noEntities
        (fun _ => baseOrder) false =
      (.error .notFound, (endSession c3Store "s1").2) := by
  have he := (c3_session_lifecycle.1 c3Store "s0" "hello" 0 ⟨.GENERAL_QUERY, 1⟩ noEntities
    (fun _ => baseOrder) false rfl).1
  have hmain := c3_session_lifecycle.2 c3Store "s1" baseSession rfl
  exact ⟨rfl, he, rfl, hmain.1, hmain.2.1,
    hmain.2.2 "hello" 0 ⟨.GENERAL_QUERY, 1⟩ noEntities (fun _ => baseOrder) false⟩

/-- The wrong-order handler appends a full-total REFUND resolution exactly when
an order id is resolvable, and otherwise leaves the resolution log unchanged. -/
theorem handleWrongOrder_resolutions (s : Session) (entities : ExtractedEntities)
    (getOrder : String → OrderDetails) (now : ℚ) :
    (handleWrongOrderIntent false s entities getOrder now).2.resolutions =
      (match firstOrderId s entities with
       | none => s.resolutions
       | some oid =>
         s.resolutions ++
           [{ type := .REFUND, orderId := oid, amount := (getOrder oid).totalAmount,
              timestamp := now, success := true }]) := by
  unfold handleWrongOrderIntent
  rw [if_neg (by simp)]
  cases firstOrderId s entities <;> rfl

/-- Claim C1 corrected: the PostMessage pipeline never consults the verification or
decision engines; on WRONG_ORDER with a resolvable order id it unconditionally
appends a full-order-total REFUND resolution, and on MISSING_ITEM,
LATE_DELIVERY and REFUND_REQUEST it appends no resolution. -/
theorem c1_pipeline_resolutions (st : SessionStore) (sid : String) (session : Session)
    (msg : String) (now : ℚ) (intent : Intent) (entities : ExtractedEntities)
    (getOrder : String → OrderDetails) (h : st sid = some session) :
    ((intent.type = .MISSING_ITEM ∨ intent.type = .LATE_DELIVERY ∨
        intent.type = .REFUND_REQUEST) →
      ((postMessage st sid msg now intent entities getOrder false).2 sid).map
        Session.resolutions = some session.resolutions) ∧
    (intent.type = .WRONG_ORDER →
      ((postMessage st sid msg now intent entities getOrder false).2 sid).map
        Session.resolutions =
        some (match firstOrderId session entities with
              | none => session.resolutions
              | some oid =>
                session.resolutions ++
                  [{ type := .REFUND, orderId := oid, amount := (getOrder oid).totalAmount,
                     timestamp := now, success := true }])) := by
  obtain ⟨ity, conf⟩ := intent
  constructor
  · rintro (rfl | rfl | rfl) <;>
      (unfold postMessage; rw [h]; simp)
  · rintro rfl
    unfold postMessage
    rw [h]
    simp [handleWrongOrder_resolutions, firstOrderId]

/-- Claim C1 counterexample: with a high-fraud-risk REGULAR customer, the
verification engine rejects the wrong-order claim, yet PostMessage on a
WRONG_ORDER intent still appends a full-total REFUND resolution; the
claim-side verification-gated pipeline would have appended nothing. -/
theorem c1_counterexample :
    (verifyWrongOrderIssue false baseOrder [] c1Customer 0).verified = false ∧
    ((postMessage c1Store "s1" "wrong order" 0 ⟨.WRONG_ORDER, 9 / 10⟩ noEntities
        (fun _ => baseOrder) false).2 "s1").map Session.resolutions =
      some [{ type := .REFUND, orderId := "order_1", amount := 299, timestamp := 0,
              success := true }] ∧
    specGatedWrongOrderResolutions c1Session noEntities (fun _ => baseOrder) 0 = [] := by
  have hv : (verifyWrongOrderIssue false baseOrder [] c1Customer 0).verified = false := by
    unfold verifyWrongOrderIssue
    rw [if_neg (by simp), if_neg (by decide), if_neg (by decide)]
    rw [if_neg (by norm_num [OrderDetails.deliveredMs, baseOrder,
      config.verificationWindows.wrongOrder])]
    rw [if_pos (by norm_num [c1Customer, regularCustomer, config.thresholds.fraudRiskScore])]
  refine ⟨hv, ?_, ?_⟩
  · simp [postMessage, c1Store, c1Session, baseSession, handleWrongOrderIntent,
      firstOrderId, noEntities, baseOrder]
  · simp [specGatedWrongOrderResolutions, firstOrderId, c1Session, baseSession,
      noEntities, hv]

/-- Claim C1 witness: a MISSING_ITEM message leaves the resolution log unchanged. -/
theorem c1_witness :
    ((postMessage c1Store "s1" "items are missing" 0 ⟨.MISSING_ITEM, 9 / 10⟩ noEntities
        (fun _ => baseOrder) false).2 "s1").map Session.resolutions = some [] := by
  have h := (c1_pipeline_resolutions c1Store "s1" c1Session "items are missing" 0
    ⟨.MISSING_ITEM, 9 / 10⟩ noEntities (fun _ => baseOrder) rfl).1 (Or.inl rfl)
  simpa [c1Session, baseSession] using h

end Zia
